import Mathlib

/-!
Verification of the session-lifecycle core of `src/main.py` (DashboardAdminAPI).

The program is a FastAPI service with three lifecycle endpoints:
`POST /start`, `POST /complete`, `POST /finish`.  Its mutable state is a
process-wide Python dict `sessions` (token → record dict) and a CSV file
(the Record Store) that is read whole, mutated, and rewritten whole.

Shallow embedding choices:
* Python dicts (the session table, the per-session record, a CSV row) are
  association lists `List (String × α)` with first-match lookup; Python
  `d[k] = v` replaces the value in place when the key is present and
  appends otherwise, which is `alistSet` below.
* The CSV file is a `List Record`.  `pandas.read_csv(dtype=str)` /
  `to_csv` round-trip string cells, with `NaN` and `""` identified (the
  program always normalises them to `""` on read via `fillna` or by
  overwriting); we model cells as plain strings with `""` for the empty
  cell.  `pd.concat` aligns an appended dict row to the existing column
  order, which is `toCsvRow`.  `df.loc[df['id'] == sid, key] = value`
  (executed per key over the in-memory record) is `syncRow`.
* External effects are inputs: the provider HTTP response of `/start` is a
  `LookupResult` argument, `uuid.uuid4()` and the current-time string are
  arguments, and the possibility that the CSV read/write raises is a
  `StoreOutcome` argument.
* Each endpoint body runs inside `try: ... except Exception as e: raise
  HTTPException(500, str(e))` (with an extra `except
  requests.exceptions.RequestException` clause in `/start`).  Because
  `fastapi.HTTPException` is itself an `Exception`, the 404s the body
  raises are caught and re-raised as 500s; the wrappers
  `start_contact` / `complete_contact` / `finish_contact` embed exactly
  this translation, keeping the Python exception value (`PyExc`) distinct
  from the final HTTP response error (`HTTPExc`).
-/

/-! ### Association lists (Python `dict` on string keys) -/

/-- First-match lookup, i.e. Python `d[k]` / `d.get(k)` on a dict encoded as
an insertion-ordered association list. -/
def alistFind (l : List (String × α)) (k : String) : Option α :=
  (l.find? (fun p => p.1 == k)).map (fun p => p.2)

/-- Python `d[k] = v`: when the key is present its value is replaced in
place (insertion order kept); otherwise the binding is appended. -/
def alistSet (l : List (String × α)) (k : String) (v : α) : List (String × α) :=
  if l.any (fun p => p.1 == k) then
    l.map (fun p => if p.1 == k then (k, v) else p)
  else
    l ++ [(k, v)]

/-- Python `del d[k]` (for dicts with unique keys). -/
def alistErase (l : List (String × α)) (k : String) : List (String × α) :=
  l.filter (fun p => !(p.1 == k))

/-- The keys of the dict, in order. -/
def alistKeys (l : List (String × α)) : List String :=
  l.map (fun p => p.1)

/-! ### Formatting helpers (`format_cpf`, `format_date`; `src/main.py` 52-60) -/

/-- Function `format_cpf` (main.py line 52): Python slicing on code points,
`cpf[:3] + "." + cpf[3:6] + "." + cpf[6:9] + "-" + cpf[9:]`. -/
def format_cpf (cpf : String) : String :=
  let l := cpf.toList
  String.mk (l.take 3) ++ "." ++ String.mk ((l.drop 3).take 3) ++ "." ++
    String.mk ((l.drop 6).take 3) ++ "-" ++ String.mk (l.drop 9)

/-- Function `format_phone` (main.py line 55); defined in the source but never called. -/
def format_phone (phone : String) : String :=
  let l := phone.toList
  "(" ++ String.mk (l.take 2) ++ ")" ++ String.mk ((l.drop 2).take 5) ++ "-" ++
    String.mk (l.drop 7)

/-- Split a character list at every occurrence of `c` (helper for the
`strptime` pattern match). -/
def splitOnCharAux (c : Char) : List Char → List Char → List (List Char)
  | [], acc => [acc.reverse]
  | x :: xs, acc =>
    if x == c then acc.reverse :: splitOnCharAux c xs []
    else splitOnCharAux c xs (x :: acc)

def splitOnChar (c : Char) (l : List Char) : List (List Char) :=
  splitOnCharAux c l []

/-- A run of 1 to `maxLen` digits, as `strptime` field matching accepts. -/
def parseFixedNat (maxLen : Nat) (l : List Char) : Option Nat :=
  if l.length ≠ 0 ∧ l.length ≤ maxLen ∧ l.all Char.isDigit then
    some (l.foldl (fun a c => a * 10 + (c.toNat - 48)) 0)
  else none

def pad2 (n : Nat) : String :=
  if n < 10 then "0" ++ toString n else toString n

def pad4 (n : Nat) : String :=
  if n < 10 then "000" ++ toString n
  else if n < 100 then "00" ++ toString n
  else if n < 1000 then "0" ++ toString n
  else toString n

/-- Day counts used by the `datetime` validity check behind `strptime`. -/
def daysInMonth (y m : Nat) : Nat :=
  if m = 2 then
    if (y % 4 = 0 ∧ y % 100 ≠ 0) ∨ y % 400 = 0 then 29 else 28
  else if m = 4 ∨ m = 6 ∨ m = 9 ∨ m = 11 then 30
  else 31

/-- Function `format_date` (main.py line 58):
`datetime.strptime(date_str, "%Y-%m-%d %H:%M:%S").strftime("%d/%m/%Y")`.
`none` models the `ValueError` that `strptime` raises when the string does
not match the pattern or names an invalid date; on success day and month
are re-emitted zero-padded to two digits and the year to four, as
`strftime("%d/%m/%Y")` does. -/
def format_date (date_str : String) : Option String :=
  match splitOnChar ' ' date_str.toList with
  | [d, t] =>
    (match splitOnChar '-' d, splitOnChar ':' t with
     | [ys, ms, ds], [hs, mins, ss] => do
       let y ← parseFixedNat 4 ys
       let m ← parseFixedNat 2 ms
       let dd ← parseFixedNat 2 ds
       let hh ← parseFixedNat 2 hs
       let mi ← parseFixedNat 2 mins
       let sec ← parseFixedNat 2 ss
       if 1 ≤ m ∧ m ≤ 12 ∧ 1 ≤ dd ∧ dd ≤ daysInMonth y m ∧
          hh ≤ 23 ∧ mi ≤ 59 ∧ sec ≤ 61 then
         some (pad2 dd ++ "/" ++ pad2 m ++ "/" ++ pad4 y)
       else none
     | _, _ => none)
  | _ => none

/-! ### Data model (`src/main.py` 23-50) -/

/-- A record / CSV row: a string-keyed dict of string cells. -/
abbrev Record := List (String × String)

/-- Constant `CSV_COLUMNS` (main.py line 24): the fixed header of the Record Store. -/
def CSV_COLUMNS : List String :=
  ["id", "name", "email", "mae", "telefone", "endereco", "geo", "cep",
   "cpf", "nascimento", "data", "ip", "senha", "codigo_telefone", "codigo_email"]

/-- The keys of the `new_contact` dict built by `start_contact`
(main.py 109-125), in their insertion order — the same fifteen names as
`CSV_COLUMNS`, in a different order. -/
def RECORD_KEYS : List String :=
  ["id", "name", "email", "mae", "cep", "cpf", "nascimento", "data", "ip",
   "telefone", "endereco", "geo", "senha", "codigo_telefone", "codigo_email"]

/-- The whole mutable state of the process: the `sessions` dict
(main.py line 30) and the rows of the CSV file. -/
structure ServerState where
  sessions : List (String × Record)
  csv : List Record
deriving DecidableEq

/-- The state right after the CSV file has been created with a bare header
(`ensure_csv_exists`, main.py 33-37) and before any request. -/
def initState : ServerState := ⟨[], []⟩

/-- Request body of `POST /start` (`ContactStart`, main.py 40-42). -/
structure ContactStart where
  ip : String
  cpf : String
deriving DecidableEq

/-- Request body of `POST /complete` (`ContactComplete`, main.py 44-50):
six optional fields. -/
structure ContactComplete where
  senha : Option String
  cep : Option String
  telefone : Option String
  codigo_telefone : Option String
  email : Option String
  codigo_email : Option String
deriving DecidableEq

/-- Python `contact.dict().items()` (main.py line 168): the six fields in their
declaration order, absent fields as `none`. -/
def ContactComplete.toItems (c : ContactComplete) : List (String × Option String) :=
  [("senha", c.senha), ("cep", c.cep), ("telefone", c.telefone),
   ("codigo_telefone", c.codigo_telefone), ("email", c.email),
   ("codigo_email", c.codigo_email)]

/-- Field selector on `ContactComplete` by field name (used only in the
statements, to quantify over the six fields). -/
def ccGet (c : ContactComplete) (f : String) : Option String :=
  if f = "senha" then c.senha
  else if f = "cep" then c.cep
  else if f = "telefone" then c.telefone
  else if f = "codigo_telefone" then c.codigo_telefone
  else if f = "email" then c.email
  else if f = "codigo_email" then c.codigo_email
  else none

/-- The six field names `complete` may merge. -/
def COMPLETE_FIELDS : List String :=
  ["senha", "cep", "telefone", "codigo_telefone", "email", "codigo_email"]

/-- An all-`none` `/complete` body. -/
def ccNone : ContactComplete := ⟨none, none, none, none, none, none⟩

/-! ### External collaborators as inputs -/

/-- One entry of the provider's `parentes` list (main.py 104-105). -/
structure ProviderPerson where
  vinculo : String
  nome : String
deriving DecidableEq

/-- The `data` object of the provider's JSON body (main.py 101-116).
`nasc = none` models a missing (or `null`) `nasc` key; a missing
`parentes` key is the empty list (`cpf_data.get("parentes", [])`). -/
structure ProviderData where
  nome : String
  cpf : String
  nasc : Option String
  parentes : List ProviderPerson
deriving DecidableEq

/-- Outcome of the `requests.get` call of `/start` (main.py 93-96):
either a transport-level failure (`requests.exceptions.RequestException`,
which `raise_for_status` failures also are) or a decoded JSON body with a
`status` field and a `data` object. -/
inductive LookupResult where
  | transportFail (msg : String)
  | response (status : Nat) (data : ProviderData)
deriving DecidableEq

/-- Whether the CSV read-modify-rewrite of the current request succeeds or
raises inside `pd.read_csv` / `df.to_csv`. -/
inductive StoreOutcome where
  | ok
  | readErr (msg : String)
  | writeErr (msg : String)
deriving DecidableEq

/-- A `fastapi.HTTPException` value: status code plus detail string. -/
structure HTTPExc where
  status_code : Nat
  detail : String
deriving DecidableEq

/-- A Python exception escaping a handler body: an `HTTPException`, a
`requests.exceptions.RequestException`, or any other `Exception`
(store I/O, `strptime` `ValueError`, ...). -/
inductive PyExc where
  | http (e : HTTPExc)
  | requestError (msg : String)
  | other (msg : String)
deriving DecidableEq

/-- Python `str(e)`: for `HTTPException`, starlette renders
`f"{status_code}: {detail}"`; for the others we carry the message itself. -/
def pyStr : PyExc → String
  | .http e => toString e.status_code ++ ": " ++ e.detail
  | .requestError m => m
  | .other m => m

/-! ### `POST /start` (`start_contact`, main.py 88-154) -/

/-- main.py 104-106: keep the `parentes` whose `vinculo` is `"FILHA(O)"`
and take the first one's `nome`, else `"N/A"`. -/
def nome_mae (parentes : List ProviderPerson) : String :=
  match parentes.filter (fun p => p.vinculo == "FILHA(O)") with
  | [] => "N/A"
  | f :: _ => f.nome

/-- main.py 116: `format_date(cpf_data["nasc"]) if cpf_data.get("nasc")
else "N/A"`; Python truthiness makes both a missing key and an empty
string fall to `"N/A"`, and a present non-empty `nasc` that `strptime`
rejects raises a `ValueError` (the `.error` case). -/
def nascimentoField : Option String → Except String String
  | none => .ok "N/A"
  | some s =>
    if s == "" then .ok "N/A"
    else match format_date s with
      | some d => .ok d
      | none => .error ("time data " ++ s ++ " does not match format")

/-- The `new_contact` dict literal of main.py 109-125. -/
def buildContact (contact : ContactStart) (data : ProviderData)
    (new_id now nascStr : String) : Record :=
  [("id", new_id),
   ("name", data.nome),
   ("email", ""),
   ("mae", nome_mae data.parentes),
   ("cep", ""),
   ("cpf", format_cpf data.cpf),
   ("nascimento", nascStr),
   ("data", now),
   ("ip", contact.ip),
   ("telefone", ""),
   ("endereco", ""),
   ("geo", ""),
   ("senha", ""),
   ("codigo_telefone", ""),
   ("codigo_email", "")]

/-- Pandas `pd.concat([df, pd.DataFrame([new_contact])])` aligns the appended
dict to the frame's `CSV_COLUMNS` column order. -/
def toCsvRow (rec : Record) : Record :=
  CSV_COLUMNS.map (fun k => (k, (alistFind rec k).getD ""))

/-- The `try:` body of `start_contact` (main.py 91-150): result value (or
escaping Python exception) together with the state left behind.  The
session insertion (line 128) happens before the CSV read/append/rewrite
(131-134), so a store failure still leaves the new session behind. -/
def start_inner (st : ServerState) (contact : ContactStart) (lookup : LookupResult)
    (new_id now : String) (outcome : StoreOutcome) :
    Except PyExc String × ServerState :=
  match lookup with
  | .transportFail m => (.error (.requestError m), st)
  | .response status data =>
    if status ≠ 200 then
      (.error (.http ⟨404, "CPF data not found"⟩), st)
    else
      match nascimentoField data.nasc with
      | .error m => (.error (.other m), st)
      | .ok nascStr =>
        let new_contact := buildContact contact data new_id now nascStr
        let sessions1 := alistSet st.sessions new_id new_contact
        match outcome with
        | .readErr m => (.error (.other m), ⟨sessions1, st.csv⟩)
        | .writeErr m => (.error (.other m), ⟨sessions1, st.csv⟩)
        | .ok =>
          (.ok "Session started successfully",
           ⟨sessions1, st.csv ++ [toCsvRow new_contact]⟩)

/-- Handler `start_contact` with its two `except` clauses (main.py 151-154): a
`RequestException` becomes a 500 with an `"Error fetching CPF data: ..."`
detail, and every other exception — including the `HTTPException(404)`
raised at line 99 — becomes `HTTPException(500, str(e))`. -/
def start_contact (st : ServerState) (contact : ContactStart) (lookup : LookupResult)
    (new_id now : String) (outcome : StoreOutcome) :
    Except HTTPExc String × ServerState :=
  match start_inner st contact lookup new_id now outcome with
  | (.ok m, st1) => (.ok m, st1)
  | (.error (.requestError m), st1) =>
    (.error ⟨500, "Error fetching CPF data: " ++ m⟩, st1)
  | (.error e, st1) => (.error ⟨500, pyStr e⟩, st1)

/-! ### `POST /complete` (`complete_contact`, main.py 156-181) -/

/-- Line 169-170: `if value is not None and value != "":
sessions[session_id][key] = value`. -/
def mergeStep (acc : Record) (kv : String × Option String) : Record :=
  match kv.2 with
  | none => acc
  | some v => if v == "" then acc else alistSet acc kv.1 v

/-- The merge loop of main.py 168-170 over the six posted fields. -/
def mergeContact (r : Record) (c : ContactComplete) : Record :=
  c.toItems.foldl mergeStep r

/-- Per-field description of the merge, used in statements: a present,
non-empty incoming value overwrites; an absent or empty one is a no-op. -/
def mergeField (incoming : Option String) (old : Option String) : Option String :=
  match incoming with
  | none => old
  | some v => if v = "" then old else some v

/-- One row-update pass of main.py 175-176 for a single record entry
`(key, value)`: `df.loc[df['id'] == session_id, key] = value`. -/
def syncStep (sid : String) (csv : List Record) (kv : String × String) : List Record :=
  csv.map (fun row => if alistFind row "id" == some sid then alistSet row kv.1 kv.2 else row)

/-- The sync loop of main.py 175-176: every entry of the in-memory record
is written into every CSV row whose `id` cell equals the session id (the
row mask is re-evaluated against the updated frame on each iteration, as
pandas does). -/
def syncRow (csv : List Record) (sid : String) (rec : Record) : List Record :=
  rec.foldl (syncStep sid) csv

/-- The number of CSV rows whose `id` cell is `t`. -/
def rowCount (csv : List Record) (t : String) : Nat :=
  csv.countP (fun row => alistFind row "id" == some t)

/-- The cumulative effect of the sync loop on one matching row: every
entry of the in-memory record overwrites the corresponding cell. -/
def rowSync (rec : Record) (row : Record) : Record :=
  rec.foldl (fun r kv => alistSet r kv.1 kv.2) row

/-- Python `not session_id or session_id not in sessions`
(main.py 164 and 191): the cookie is missing, empty (falsy), or unknown. -/
def sessionAbsent (sessions : List (String × Record)) (sid : Option String) : Bool :=
  match sid with
  | none => true
  | some s => s == "" || (alistFind sessions s).isNone

/-- The `try:` body of `complete_contact` (main.py 159-179).  The session
dict is merged in place (168-170) before the CSV read/patch/rewrite
(173-177), so a store failure still leaves the merged session behind. -/
def complete_inner (st : ServerState) (contact : ContactComplete)
    (session_id : Option String) (outcome : StoreOutcome) :
    Except PyExc String × ServerState :=
  match session_id with
  | none => (.error (.http ⟨404, "Session not found"⟩), st)
  | some s =>
    if s == "" then (.error (.http ⟨404, "Session not found"⟩), st)
    else
      match alistFind st.sessions s with
      | none => (.error (.http ⟨404, "Session not found"⟩), st)
      | some r =>
        let r1 := mergeContact r contact
        let sessions1 := alistSet st.sessions s r1
        match outcome with
        | .readErr m => (.error (.other m), ⟨sessions1, st.csv⟩)
        | .writeErr m => (.error (.other m), ⟨sessions1, st.csv⟩)
        | .ok =>
          (.ok "Session updated successfully", ⟨sessions1, syncRow st.csv s r1⟩)

/-- Handler `complete_contact` with its blanket `except Exception` (main.py
180-181): every exception — including the `HTTPException(404, "Session
not found")` of line 165 — is re-raised as `HTTPException(500, str(e))`. -/
def complete_contact (st : ServerState) (contact : ContactComplete)
    (session_id : Option String) (outcome : StoreOutcome) :
    Except HTTPExc String × ServerState :=
  match complete_inner st contact session_id outcome with
  | (.ok m, st1) => (.ok m, st1)
  | (.error e, st1) => (.error ⟨500, pyStr e⟩, st1)

/-! ### `POST /finish` (`finish_contact`, main.py 183-202) -/

/-- The `try:` body of `finish_contact` (main.py 186-200): same session
check, then `del sessions[session_id]`; the CSV is never touched. -/
def finish_inner (st : ServerState) (session_id : Option String) :
    Except PyExc String × ServerState :=
  match session_id with
  | none => (.error (.http ⟨404, "Session not found"⟩), st)
  | some s =>
    if s == "" then (.error (.http ⟨404, "Session not found"⟩), st)
    else
      match alistFind st.sessions s with
      | none => (.error (.http ⟨404, "Session not found"⟩), st)
      | some _ =>
        (.ok "Session finished successfully", ⟨alistErase st.sessions s, st.csv⟩)

/-- Handler `finish_contact` with its blanket `except Exception` (main.py
201-202), which re-raises the 404 of line 192 as a 500. -/
def finish_contact (st : ServerState) (session_id : Option String) :
    Except HTTPExc String × ServerState :=
  match finish_inner st session_id with
  | (.ok m, st1) => (.ok m, st1)
  | (.error e, st1) => (.error ⟨500, pyStr e⟩, st1)

/-! ### Reachable states of the service -/

/-- One request against the running service: the state transition of a
`start`, `complete`, or `finish` call with arbitrary inputs.  The two
freshness hypotheses on `start` model the uniqueness of `uuid.uuid4()`:
the generated id collides with no live session and no stored row.  With
`strict = true` the transition additionally requires the store
synchronization of `start` to have succeeded; `strict = false` allows
every outcome. -/
inductive AppStep : Bool → ServerState → ServerState → Prop
  | start (strict : Bool) (st : ServerState) (contact : ContactStart)
      (lookup : LookupResult) (new_id now : String) (outcome : StoreOutcome)
      (hfresh1 : alistFind st.sessions new_id = none)
      (hfresh2 : rowCount st.csv new_id = 0)
      (hstrict : strict = true → outcome = .ok) :
      AppStep strict st (start_contact st contact lookup new_id now outcome).2
  | complete (strict : Bool) (st : ServerState) (contact : ContactComplete)
      (session_id : Option String) (outcome : StoreOutcome) :
      AppStep strict st (complete_contact st contact session_id outcome).2
  | finish (strict : Bool) (st : ServerState) (session_id : Option String) :
      AppStep strict st (finish_contact st session_id).2

/-- States reachable from the fresh store by any run of requests,
store failures included. -/
def Reachable (st : ServerState) : Prop :=
  Relation.ReflTransGen (AppStep false) initState st

/-- States reachable by runs in which every `start` call's store
synchronization succeeded (`complete` and `finish` still may fail). -/
def ReachableSync (st : ServerState) : Prop :=
  Relation.ReflTransGen (AppStep true) initState st

/-- Well-formedness of one live session entry: its record carries exactly
the fifteen `new_contact` keys, its `id` cell is the session token, and
its `endereco` and `geo` cells are empty. -/
def SessionEntryOK (p : String × Record) : Prop :=
  alistKeys p.2 = RECORD_KEYS ∧ alistFind p.2 "id" = some p.1 ∧
    alistFind p.2 "endereco" = some "" ∧ alistFind p.2 "geo" = some ""

/-- Well-formedness of one Record Store row: the fifteen `CSV_COLUMNS`
cells, with empty `endereco` and `geo`. -/
def CsvRowOK (row : Record) : Prop :=
  alistKeys row = CSV_COLUMNS ∧ alistFind row "endereco" = some "" ∧
    alistFind row "geo" = some ""

/-- The structural invariant of the service state. -/
def StateInv (st : ServerState) : Prop :=
  (alistKeys st.sessions).Nodup ∧ (∀ p ∈ st.sessions, SessionEntryOK p) ∧
    (∀ row ∈ st.csv, CsvRowOK row)

/-- Every live session's token matches exactly one Record Store row. -/
def CountInv (st : ServerState) : Prop :=
  ∀ p ∈ st.sessions, rowCount st.csv p.1 = 1

/-! ### Association-list lemmas -/

theorem alistFind_nil (k : String) : alistFind ([] : List (String × α)) k = none := rfl

theorem alistFind_cons (p : String × α) (t : List (String × α)) (k : String) :
    alistFind (p :: t) k = if p.1 == k then some p.2 else alistFind t k := by
  simp only [alistFind, List.find?]
  cases h : p.1 == k <;> simp [h]

theorem alistFind_eq_none_iff (l : List (String × α)) (k : String) :
    alistFind l k = none ↔ ∀ p ∈ l, (p.1 == k) = false := by
  simp [alistFind, List.find?_eq_none]

theorem any_key_eq_false_of_find_none {l : List (String × α)} {k : String}
    (h : alistFind l k = none) : l.any (fun p => p.1 == k) = false := by
  rw [List.any_eq_false]
  intro p hp
  simp [(alistFind_eq_none_iff l k).mp h p hp]

theorem alistSet_of_find_none {l : List (String × α)} {k : String} (v : α)
    (h : alistFind l k = none) : alistSet l k v = l ++ [(k, v)] := by
  simp [alistSet, any_key_eq_false_of_find_none h]

theorem alistFind_append (l₁ l₂ : List (String × α)) (k : String) :
    alistFind (l₁ ++ l₂) k =
      match alistFind l₁ k with
      | some v => some v
      | none => alistFind l₂ k := by
  induction l₁ with
  | nil => simp [alistFind_nil]
  | cons p t ih =>
    cases h : p.1 == k <;> simp [alistFind_cons, h, ih]

theorem alistFind_map_update_self {l : List (String × α)} {k : String} {v : α}
    (h : l.any (fun p => p.1 == k) = true) :
    alistFind (l.map (fun p => if p.1 == k then (k, v) else p)) k = some v := by
  induction l with
  | nil => simp at h
  | cons p t ih =>
    by_cases hp : p.1 = k
    · simp [alistFind_cons, hp]
    · have hpb : (p.1 == k) = false := by simp [hp]
      have ht : t.any (fun p => p.1 == k) = true := by
        simp only [List.any_cons, hpb, Bool.false_or] at h
        exact h
      simp only [List.map_cons, hpb, Bool.false_eq_true, if_false, alistFind_cons]
      exact ih ht

theorem alistFind_map_update_ne {l : List (String × α)} {k k' : String} {v : α}
    (hne : k' ≠ k) :
    alistFind (l.map (fun p => if p.1 == k then (k, v) else p)) k' = alistFind l k' := by
  induction l with
  | nil => simp
  | cons p t ih =>
    by_cases hp : p.1 = k
    · have hpb : (p.1 == k) = true := by simp [hp]
      have h1 : (k == k') = false := by simp [Ne.symm hne]
      have h2 : (p.1 == k') = false := by simp [hp, Ne.symm hne]
      simp only [List.map_cons, hpb, if_true]
      rw [alistFind_cons, alistFind_cons]
      simp only [h1, h2, Bool.false_eq_true, if_false]
      exact ih
    · have hpb : (p.1 == k) = false := by simp [hp]
      simp only [List.map_cons, hpb, Bool.false_eq_true, if_false]
      rw [alistFind_cons, alistFind_cons]
      cases hp' : p.1 == k' with
      | true => simp [hp']
      | false => simp only [hp', Bool.false_eq_true, if_false]; exact ih

/-- Lookup after a dict assignment: the written key reads back the new
value, every other key is untouched. -/
theorem alistFind_alistSet (l : List (String × α)) (k k' : String) (v : α) :
    alistFind (alistSet l k v) k' = if k' = k then some v else alistFind l k' := by
  unfold alistSet
  cases hany : l.any (fun p => p.1 == k) with
  | true =>
    simp only [if_true]
    by_cases hk : k' = k
    · subst hk
      rw [if_pos rfl]
      exact alistFind_map_update_self hany
    · rw [if_neg hk]
      exact alistFind_map_update_ne hk
  | false =>
    simp only [Bool.false_eq_true, if_false]
    rw [alistFind_append]
    have hnone : alistFind l k = none := by
      rw [alistFind_eq_none_iff]
      intro p hp
      rw [List.any_eq_false] at hany
      simpa using hany p hp
    by_cases hk : k' = k
    · subst hk
      simp [hnone, alistFind_cons]
    · have h1 : (k == k') = false := by simp [Ne.symm hk]
      cases hfind : alistFind l k' with
      | some v0 => simp [hk, hfind]
      | none => simp [hk, hfind, alistFind_cons, h1, alistFind_nil]

theorem alistFind_set_self (l : List (String × α)) (k : String) (v : α) :
    alistFind (alistSet l k v) k = some v := by
  simp [alistFind_alistSet]

theorem alistFind_set_ne (l : List (String × α)) {k k' : String} (v : α)
    (hne : k' ≠ k) : alistFind (alistSet l k v) k' = alistFind l k' := by
  simp [alistFind_alistSet, hne]

theorem alistKeys_append (l₁ l₂ : List (String × α)) :
    alistKeys (l₁ ++ l₂) = alistKeys l₁ ++ alistKeys l₂ := by
  simp [alistKeys]

theorem alistKeys_set_of_mem {l : List (String × α)} {k : String} (v : α)
    (h : k ∈ alistKeys l) : alistKeys (alistSet l k v) = alistKeys l := by
  have hany : l.any (fun p => p.1 == k) = true := by
    rw [List.any_eq_true]
    rcases List.mem_map.mp h with ⟨p, hp, hk⟩
    exact ⟨p, hp, by simp [hk]⟩
  unfold alistSet
  rw [if_pos hany]
  unfold alistKeys
  rw [List.map_map]
  apply List.map_congr_left
  intro p _
  by_cases hp : p.1 = k <;> simp [hp]

theorem alistKeys_set_of_find_none {l : List (String × α)} {k : String} (v : α)
    (h : alistFind l k = none) : alistKeys (alistSet l k v) = alistKeys l ++ [k] := by
  rw [alistSet_of_find_none v h, alistKeys_append]
  rfl

theorem not_mem_keys_of_find_none {l : List (String × α)} {k : String}
    (h : alistFind l k = none) : k ∉ alistKeys l := by
  intro hmem
  rcases List.mem_map.mp hmem with ⟨p, hp, hk⟩
  have := (alistFind_eq_none_iff l k).mp h p hp
  simp [hk] at this

theorem mem_keys_of_mem {l : List (String × α)} {p : String × α} (h : p ∈ l) :
    p.1 ∈ alistKeys l :=
  List.mem_map.mpr ⟨p, h, rfl⟩

theorem mem_of_alistFind_eq_some {l : List (String × α)} {k : String} {v : α}
    (h : alistFind l k = some v) : (k, v) ∈ l := by
  unfold alistFind at h
  cases hf : l.find? (fun p => p.1 == k) with
  | none => rw [hf] at h; simp at h
  | some p =>
    rw [hf] at h
    have hp := List.find?_some hf
    have hmem := List.mem_of_find?_eq_some hf
    have hk : p.1 = k := by simpa using hp
    have hv : p.2 = v := by simpa using h
    have : p = (k, v) := Prod.ext hk hv
    rwa [this] at hmem

theorem alistFind_eq_some_of_mem {l : List (String × α)} {k : String} {v : α}
    (hnd : (alistKeys l).Nodup) (hm : (k, v) ∈ l) : alistFind l k = some v := by
  induction l with
  | nil => simp at hm
  | cons p t ih =>
    rcases List.mem_cons.mp hm with hm | hm
    · rw [← hm, alistFind_cons]
      simp
    · have hk : k ∈ alistKeys t := @mem_keys_of_mem _ t (k, v) hm
      have hnd' : (alistKeys t).Nodup := (List.nodup_cons.mp hnd).2
      have hp1 : p.1 ∉ alistKeys t := (List.nodup_cons.mp hnd).1
      have hne : (p.1 == k) = false := by
        by_cases h : p.1 = k
        · exact absurd (h ▸ hk) hp1
        · simp [h]
      rw [alistFind_cons, hne]
      simp only [Bool.false_eq_true, if_false]
      exact ih hnd' hm

theorem alist_forall_set {l : List (String × α)} {k : String} {v : α}
    {P : String × α → Prop} (hl : ∀ p ∈ l, P p) (hkv : P (k, v)) :
    ∀ p ∈ alistSet l k v, P p := by
  intro p hp
  unfold alistSet at hp
  cases hany : l.any (fun q => q.1 == k) with
  | true =>
    rw [hany, if_pos rfl] at hp
    rcases List.mem_map.mp hp with ⟨q, hq, hEq⟩
    by_cases hcase : q.1 = k
    · have hqb : (q.1 == k) = true := by simp [hcase]
      rw [← hEq]
      simp only [hqb, if_true]
      exact hkv
    · have hqb : (q.1 == k) = false := by simp [hcase]
      rw [← hEq]
      simp only [hqb, Bool.false_eq_true, if_false]
      exact hl q hq
  | false =>
    rw [hany] at hp
    simp only [Bool.false_eq_true, if_false] at hp
    rcases List.mem_append.mp hp with h | h
    · exact hl p h
    · rw [List.mem_singleton.mp h]
      exact hkv

theorem mem_alistErase {l : List (String × α)} {k : String} {p : String × α}
    (h : p ∈ alistErase l k) : p ∈ l :=
  List.mem_of_mem_filter h

theorem alistKeys_erase_sublist (l : List (String × α)) (k : String) :
    (alistKeys (alistErase l k)).Sublist (alistKeys l) := by
  simp only [alistErase, alistKeys]
  exact List.Sublist.map _ (List.filter_sublist l)

theorem alistFind_erase_self (l : List (String × α)) (k : String) :
    alistFind (alistErase l k) k = none := by
  rw [alistFind_eq_none_iff]
  intro p hp
  have := List.of_mem_filter hp
  simpa using this

/-! ### Merge-loop lemmas (`complete`, main.py 168-170) -/

theorem alistFind_mergeStep (acc : Record) (k k' : String) (ov : Option String) :
    alistFind (mergeStep acc (k, ov)) k' =
      if k' = k then mergeField ov (alistFind acc k') else alistFind acc k' := by
  cases ov with
  | none => simp [mergeStep, mergeField]
  | some v =>
    by_cases hv : v = ""
    · simp [mergeStep, mergeField, hv]
    · have hvb : (v == "") = false := by simp [hv]
      simp only [mergeStep, hvb, Bool.false_eq_true, if_false, mergeField]
      rw [alistFind_alistSet]
      by_cases hk : k' = k <;> simp [hk, hv]

theorem alistKeys_mergeStep {acc : Record} {k : String} (ov : Option String)
    (h : k ∈ alistKeys acc) : alistKeys (mergeStep acc (k, ov)) = alistKeys acc := by
  cases ov with
  | none => rfl
  | some v =>
    by_cases hv : v = ""
    · simp [mergeStep, hv]
    · have hvb : (v == "") = false := by simp [hv]
      simp only [mergeStep, hvb, Bool.false_eq_true, if_false]
      exact alistKeys_set_of_mem v h

theorem alistFind_foldl_mergeStep_not_mem {items : List (String × Option String)}
    {k : String} (h : ∀ i ∈ items, i.1 ≠ k) (r : Record) :
    alistFind (items.foldl mergeStep r) k = alistFind r k := by
  induction items generalizing r with
  | nil => rfl
  | cons i t ih =>
    rw [List.foldl_cons]
    have hne : k ≠ i.1 := fun hk => h i (List.mem_cons_self i t) hk.symm
    have hstep : alistFind (mergeStep r i) k = alistFind r k := by
      have : mergeStep r i = mergeStep r (i.1, i.2) := by rfl
      rw [this, alistFind_mergeStep, if_neg hne]
    rw [ih (fun j hj => h j (List.mem_cons_of_mem i hj)) (mergeStep r i), hstep]

theorem alistKeys_foldl_mergeStep {items : List (String × Option String)}
    {r : Record} (h : ∀ i ∈ items, i.1 ∈ alistKeys r) :
    alistKeys (items.foldl mergeStep r) = alistKeys r := by
  induction items generalizing r with
  | nil => rfl
  | cons i t ih =>
    rw [List.foldl_cons]
    have hstep : alistKeys (mergeStep r i) = alistKeys r := by
      have : mergeStep r i = mergeStep r (i.1, i.2) := by rfl
      rw [this]
      exact alistKeys_mergeStep i.2 (h i (List.mem_cons_self i t))
    rw [ih (fun j hj => by rw [hstep]; exact h j (List.mem_cons_of_mem i hj)), hstep]

/-- Field-wise description of the merge loop: for each of the six posted
fields, the stored value is overwritten exactly when the incoming value is
present and non-empty. -/
theorem alistFind_mergeContact (r : Record) (c : ContactComplete) {f : String}
    (hf : f ∈ COMPLETE_FIELDS) :
    alistFind (mergeContact r c) f = mergeField (ccGet c f) (alistFind r f) := by
  have expand : mergeContact r c =
      mergeStep (mergeStep (mergeStep (mergeStep (mergeStep (mergeStep r
        ("senha", c.senha)) ("cep", c.cep)) ("telefone", c.telefone))
        ("codigo_telefone", c.codigo_telefone)) ("email", c.email))
        ("codigo_email", c.codigo_email) := rfl
  simp only [COMPLETE_FIELDS] at hf
  fin_cases hf <;> rw [expand] <;> simp [alistFind_mergeStep, ccGet]

theorem alistFind_mergeContact_not_mem (r : Record) (c : ContactComplete)
    {f : String} (hf : f ∉ COMPLETE_FIELDS) :
    alistFind (mergeContact r c) f = alistFind r f := by
  apply alistFind_foldl_mergeStep_not_mem
  intro i hi hik
  apply hf
  rw [← hik]
  fin_cases hi <;> simp [COMPLETE_FIELDS]

theorem alistKeys_mergeContact {r : Record} (c : ContactComplete)
    (h : alistKeys r = RECORD_KEYS) : alistKeys (mergeContact r c) = alistKeys r := by
  apply alistKeys_foldl_mergeStep
  intro i hi
  rw [h]
  fin_cases hi <;> simp [RECORD_KEYS]

/-! ### Sync-loop lemmas (`complete`, main.py 173-177) -/

theorem alistKeys_cons (p : String × α) (t : List (String × α)) :
    alistKeys (p :: t) = p.1 :: alistKeys t := rfl

theorem rowSync_cons (kv : String × String) (rest : Record) (row : Record) :
    rowSync (kv :: rest) row = rowSync rest (alistSet row kv.1 kv.2) := rfl

theorem alistFind_rowSync_not_mem {rec : Record} {k : String}
    (h : k ∉ alistKeys rec) (row : Record) :
    alistFind (rowSync rec row) k = alistFind row k := by
  induction rec generalizing row with
  | nil => rfl
  | cons kv rest ih =>
    rw [rowSync_cons]
    rw [alistKeys_cons] at h
    have h1 : k ∉ alistKeys rest := fun hh => h (List.mem_cons_of_mem _ hh)
    have h2 : kv.1 ≠ k := fun hh => h (by rw [hh]; exact List.mem_cons_self _ _)
    rw [ih h1, alistFind_alistSet, if_neg (Ne.symm h2)]

theorem alistFind_rowSync_of_find {rec : Record} {k v : String}
    (hnd : (alistKeys rec).Nodup) (hk : alistFind rec k = some v) (row : Record) :
    alistFind (rowSync rec row) k = some v := by
  induction rec generalizing row with
  | nil => simp [alistFind_nil] at hk
  | cons kv rest ih =>
    rw [rowSync_cons]
    rw [alistKeys_cons] at hnd
    by_cases hkk : kv.1 = k
    · have hknotin : k ∉ alistKeys rest := by
        have := (List.nodup_cons.mp hnd).1
        rwa [hkk] at this
      rw [alistFind_rowSync_not_mem hknotin, alistFind_alistSet, if_pos hkk.symm]
      have hhead : alistFind (kv :: rest) k = some kv.2 := by
        rw [alistFind_cons]
        simp [hkk]
      rw [hhead] at hk
      exact hk
    · have hb : (kv.1 == k) = false := by simp [hkk]
      have hk' : alistFind rest k = some v := by
        rw [alistFind_cons, hb] at hk
        simpa using hk
      exact ih (List.nodup_cons.mp hnd).2 hk' _

theorem alistKeys_rowSync {rec : Record} {row : Record}
    (h : ∀ k ∈ alistKeys rec, k ∈ alistKeys row) :
    alistKeys (rowSync rec row) = alistKeys row := by
  induction rec generalizing row with
  | nil => rfl
  | cons kv rest ih =>
    rw [rowSync_cons]
    have hmem : kv.1 ∈ alistKeys row := by
      apply h
      rw [alistKeys_cons]
      exact List.mem_cons_self _ _
    have hkeys : alistKeys (alistSet row kv.1 kv.2) = alistKeys row :=
      alistKeys_set_of_mem _ hmem
    have hsub : ∀ k ∈ alistKeys rest, k ∈ alistKeys (alistSet row kv.1 kv.2) := by
      intro k hkmem
      rw [hkeys]
      apply h
      rw [alistKeys_cons]
      exact List.mem_cons_of_mem _ hkmem
    rw [ih hsub, hkeys]

/-- The per-key pandas loop of main.py 175-176 is the per-row map that
rewrites every matching row (`id` cell equal to the session id) with the
in-memory record; non-matching rows are untouched.  The hypothesis says
the record's own `id` entries carry the session id, which keeps the row
mask stable across the loop. -/
theorem syncRow_map_form {rec : Record} {sid : String}
    (hid : ∀ p ∈ rec, p.1 = "id" → p.2 = sid) (csv : List Record) :
    syncRow csv sid rec =
      csv.map (fun row => if alistFind row "id" == some sid then rowSync rec row else row) := by
  induction rec generalizing csv with
  | nil =>
    have : (fun row : Record => if alistFind row "id" == some sid then rowSync [] row else row)
        = fun row => row := by
      funext row
      by_cases h : alistFind row "id" == some sid <;> simp [h, rowSync]
    rw [this]
    simp [syncRow]
  | cons kv rest ih =>
    have hid' : ∀ p ∈ rest, p.1 = "id" → p.2 = sid :=
      fun p hp => hid p (List.mem_cons_of_mem kv hp)
    have h1 : syncRow csv sid (kv :: rest) = syncRow (syncStep sid csv kv) sid rest := rfl
    rw [h1, ih hid']
    simp only [syncStep, List.map_map]
    apply List.map_congr_left
    intro row _
    simp only [Function.comp]
    by_cases hmatch : alistFind row "id" == some sid
    · have hset : (alistFind (alistSet row kv.1 kv.2) "id" == some sid) = true := by
        rw [alistFind_alistSet]
        by_cases hk : kv.1 = "id"
        · rw [if_pos hk.symm]
          have : kv.2 = sid := hid kv (List.mem_cons_self kv rest) hk
          simp [this]
        · rw [if_neg (fun hh => hk hh.symm)]
          exact hmatch
      rw [if_pos hmatch, if_pos hmatch, if_pos hset, rowSync_cons]
    · rw [if_neg hmatch, if_neg hmatch, if_neg hmatch]

/-- The sync loop never changes which rows carry which `id`, hence
preserves every token's row count (and the number of rows). -/
theorem rowCount_syncRow {rec : Record} {sid : String}
    (hnd : (alistKeys rec).Nodup) (hid : alistFind rec "id" = some sid)
    (csv : List Record) (t : String) :
    rowCount (syncRow csv sid rec) t = rowCount csv t := by
  have hid' : ∀ p ∈ rec, p.1 = "id" → p.2 = sid := by
    intro p hp hk
    have h2 : alistFind rec "id" = some p.2 := by
      rw [← hk]
      exact alistFind_eq_some_of_mem hnd hp
    rw [hid] at h2
    exact (Option.some.inj h2).symm
  rw [syncRow_map_form hid']
  unfold rowCount
  rw [List.countP_map]
  apply List.countP_congr
  intro row _
  simp only [Function.comp]
  by_cases hmatch : alistFind row "id" == some sid
  · have heq : alistFind row "id" = some sid := by simpa using hmatch
    rw [if_pos hmatch, alistFind_rowSync_of_find hnd hid row, heq]
  · rw [if_neg hmatch]

/-! ### The freshly built record and its CSV image -/

theorem alistKeys_buildContact (contact : ContactStart) (data : ProviderData)
    (new_id now nascStr : String) :
    alistKeys (buildContact contact data new_id now nascStr) = RECORD_KEYS := rfl

theorem buildContact_id (contact : ContactStart) (data : ProviderData)
    (new_id now nascStr : String) :
    alistFind (buildContact contact data new_id now nascStr) "id" = some new_id := rfl

theorem buildContact_endereco (contact : ContactStart) (data : ProviderData)
    (new_id now nascStr : String) :
    alistFind (buildContact contact data new_id now nascStr) "endereco" = some "" := rfl

theorem buildContact_geo (contact : ContactStart) (data : ProviderData)
    (new_id now nascStr : String) :
    alistFind (buildContact contact data new_id now nascStr) "geo" = some "" := rfl

theorem buildContact_cpf (contact : ContactStart) (data : ProviderData)
    (new_id now nascStr : String) :
    alistFind (buildContact contact data new_id now nascStr) "cpf"
      = some (format_cpf data.cpf) := rfl

theorem buildContact_nascimento (contact : ContactStart) (data : ProviderData)
    (new_id now nascStr : String) :
    alistFind (buildContact contact data new_id now nascStr) "nascimento"
      = some nascStr := rfl

theorem buildContact_mae (contact : ContactStart) (data : ProviderData)
    (new_id now nascStr : String) :
    alistFind (buildContact contact data new_id now nascStr) "mae"
      = some (nome_mae data.parentes) := rfl

theorem alistKeys_toCsvRow (rec : Record) : alistKeys (toCsvRow rec) = CSV_COLUMNS := by
  unfold toCsvRow alistKeys
  rw [List.map_map]
  have h : ((fun p : String × String => p.1) ∘ fun k => (k, (alistFind rec k).getD "")) = id := by
    funext k
    rfl
  rw [h, List.map_id]

theorem toCsvRow_id (rec : Record) :
    alistFind (toCsvRow rec) "id" = some ((alistFind rec "id").getD "") := rfl

theorem toCsvRow_endereco (rec : Record) :
    alistFind (toCsvRow rec) "endereco" = some ((alistFind rec "endereco").getD "") := rfl

theorem toCsvRow_geo (rec : Record) :
    alistFind (toCsvRow rec) "geo" = some ((alistFind rec "geo").getD "") := rfl

/-! ### Invariant preservation -/

theorem RECORD_KEYS_nodup : RECORD_KEYS.Nodup := by decide

theorem RECORD_KEYS_subset_CSV : ∀ k ∈ RECORD_KEYS, k ∈ CSV_COLUMNS := by decide

theorem sessionEntryOK_merge {s : String} {r : Record} (c : ContactComplete)
    (h : SessionEntryOK (s, r)) : SessionEntryOK (s, mergeContact r c) := by
  obtain ⟨hkeys, hid, hend, hgeo⟩ := h
  refine ⟨?_, ?_, ?_, ?_⟩
  · rw [alistKeys_mergeContact c hkeys]
    exact hkeys
  · rw [alistFind_mergeContact_not_mem r c (by decide)]
    exact hid
  · rw [alistFind_mergeContact_not_mem r c (by decide)]
    exact hend
  · rw [alistFind_mergeContact_not_mem r c (by decide)]
    exact hgeo

theorem stateInv_start {st : ServerState} (contact : ContactStart)
    (lookup : LookupResult) (new_id now : String) (outcome : StoreOutcome)
    (hInv : StateInv st) (hfresh1 : alistFind st.sessions new_id = none) :
    StateInv (start_contact st contact lookup new_id now outcome).2 := by
  obtain ⟨hnd, hsess, hcsv⟩ := hInv
  cases lookup with
  | transportFail m => exact ⟨hnd, hsess, hcsv⟩
  | response status data =>
    by_cases hs : status ≠ 200
    · simp only [start_contact, start_inner, if_pos hs]
      exact ⟨hnd, hsess, hcsv⟩
    · cases hnasc : nascimentoField data.nasc with
      | error m =>
        simp only [start_contact, start_inner, if_neg hs, hnasc]
        exact ⟨hnd, hsess, hcsv⟩
      | ok ns =>
        have hnewOK : SessionEntryOK (new_id, buildContact contact data new_id now ns) :=
          ⟨alistKeys_buildContact _ _ _ _ _, buildContact_id _ _ _ _ _,
           buildContact_endereco _ _ _ _ _, buildContact_geo _ _ _ _ _⟩
        have hndnew : (alistKeys (alistSet st.sessions new_id
            (buildContact contact data new_id now ns))).Nodup := by
          rw [alistKeys_set_of_find_none _ hfresh1]
          rw [List.nodup_append]
          exact ⟨hnd, List.nodup_singleton _,
            by simpa [List.disjoint_singleton] using not_mem_keys_of_find_none hfresh1⟩
        have hsessnew : ∀ p ∈ alistSet st.sessions new_id
            (buildContact contact data new_id now ns), SessionEntryOK p :=
          alist_forall_set hsess hnewOK
        have hrowOK : CsvRowOK (toCsvRow (buildContact contact data new_id now ns)) := by
          refine ⟨alistKeys_toCsvRow _, ?_, ?_⟩
          · rw [toCsvRow_endereco, buildContact_endereco]
            rfl
          · rw [toCsvRow_geo, buildContact_geo]
            rfl
        cases outcome with
        | readErr m =>
          simp only [start_contact, start_inner, if_neg hs, hnasc]
          exact ⟨hndnew, hsessnew, hcsv⟩
        | writeErr m =>
          simp only [start_contact, start_inner, if_neg hs, hnasc]
          exact ⟨hndnew, hsessnew, hcsv⟩
        | ok =>
          simp only [start_contact, start_inner, if_neg hs, hnasc]
          refine ⟨hndnew, hsessnew, ?_⟩
          intro row hrow
          rcases List.mem_append.mp hrow with h | h
          · exact hcsv row h
          · rw [List.mem_singleton.mp h]
            exact hrowOK

theorem rec_id_entries {rec : Record} {sid : String}
    (hnd : (alistKeys rec).Nodup) (hid : alistFind rec "id" = some sid) :
    ∀ p ∈ rec, p.1 = "id" → p.2 = sid := by
  intro p hp hk
  have h2 : alistFind rec "id" = some p.2 := by
    rw [← hk]
    exact alistFind_eq_some_of_mem hnd hp
  rw [hid] at h2
  exact (Option.some.inj h2).symm

theorem csvRowOK_rowSync {rec row : Record} (hkeys : alistKeys rec = RECORD_KEYS)
    (hend : alistFind rec "endereco" = some "") (hgeo : alistFind rec "geo" = some "")
    (hrow : CsvRowOK row) : CsvRowOK (rowSync rec row) := by
  obtain ⟨hrowkeys, _, _⟩ := hrow
  have hndrec : (alistKeys rec).Nodup := by
    rw [hkeys]
    exact RECORD_KEYS_nodup
  refine ⟨?_, ?_, ?_⟩
  · rw [alistKeys_rowSync, hrowkeys]
    intro k hk
    rw [hrowkeys]
    rw [hkeys] at hk
    exact RECORD_KEYS_subset_CSV k hk
  · exact alistFind_rowSync_of_find hndrec hend row
  · exact alistFind_rowSync_of_find hndrec hgeo row

theorem stateInv_complete {st : ServerState} (contact : ContactComplete)
    (session_id : Option String) (outcome : StoreOutcome) (hInv : StateInv st) :
    StateInv (complete_contact st contact session_id outcome).2 := by
  obtain ⟨hnd, hsess, hcsv⟩ := hInv
  cases session_id with
  | none => exact ⟨hnd, hsess, hcsv⟩
  | some s =>
    cases hse : s == "" with
    | true =>
      simp only [complete_contact, complete_inner, hse]
      exact ⟨hnd, hsess, hcsv⟩
    | false =>
      cases hfind : alistFind st.sessions s with
      | none =>
        simp only [complete_contact, complete_inner, hse, hfind]
        exact ⟨hnd, hsess, hcsv⟩
      | some r =>
        have hmem : (s, r) ∈ st.sessions := mem_of_alistFind_eq_some hfind
        have hOK : SessionEntryOK (s, r) := hsess _ hmem
        have hOK1 : SessionEntryOK (s, mergeContact r contact) :=
          sessionEntryOK_merge contact hOK
        have hskeys : s ∈ alistKeys st.sessions := mem_keys_of_mem hmem
        have hnd1 : (alistKeys (alistSet st.sessions s (mergeContact r contact))).Nodup := by
          rw [alistKeys_set_of_mem _ hskeys]
          exact hnd
        have hsess1 : ∀ p ∈ alistSet st.sessions s (mergeContact r contact),
            SessionEntryOK p := alist_forall_set hsess hOK1
        cases outcome with
        | readErr m =>
          simp only [complete_contact, complete_inner, hse, hfind]
          exact ⟨hnd1, hsess1, hcsv⟩
        | writeErr m =>
          simp only [complete_contact, complete_inner, hse, hfind]
          exact ⟨hnd1, hsess1, hcsv⟩
        | ok =>
          simp only [complete_contact, complete_inner, hse, hfind]
          refine ⟨hnd1, hsess1, ?_⟩
          have hndrec : (alistKeys (mergeContact r contact)).Nodup := by
            rw [hOK1.1]
            exact RECORD_KEYS_nodup
          have hid' : ∀ p ∈ mergeContact r contact, p.1 = "id" → p.2 = s :=
            rec_id_entries hndrec hOK1.2.1
          rw [syncRow_map_form hid']
          intro row' hrow'
          rcases List.mem_map.mp hrow' with ⟨row, hrowmem, hEq⟩
          rw [← hEq]
          by_cases hmatch : alistFind row "id" == some s
          · rw [if_pos hmatch]
            exact csvRowOK_rowSync hOK1.1 hOK1.2.2.1 hOK1.2.2.2 (hcsv row hrowmem)
          · rw [if_neg hmatch]
            exact hcsv row hrowmem

theorem stateInv_finish {st : ServerState} (session_id : Option String)
    (hInv : StateInv st) : StateInv (finish_contact st session_id).2 := by
  obtain ⟨hnd, hsess, hcsv⟩ := hInv
  cases session_id with
  | none => exact ⟨hnd, hsess, hcsv⟩
  | some s =>
    cases hse : s == "" with
    | true =>
      simp only [finish_contact, finish_inner, hse]
      exact ⟨hnd, hsess, hcsv⟩
    | false =>
      cases hfind : alistFind st.sessions s with
      | none =>
        simp only [finish_contact, finish_inner, hse, hfind]
        exact ⟨hnd, hsess, hcsv⟩
      | some r =>
        simp only [finish_contact, finish_inner, hse, hfind]
        refine ⟨?_, ?_, hcsv⟩
        · exact (alistKeys_erase_sublist st.sessions s).nodup hnd
        · intro p hp
          exact hsess p (mem_alistErase hp)

/-- Every state reachable by any run of requests (store failures allowed)
satisfies the structural invariant. -/
theorem stateInv_of_reachable {st : ServerState} (h : Reachable st) : StateInv st := by
  induction h with
  | refl =>
    refine ⟨List.nodup_nil, ?_, ?_⟩ <;> intro p hp <;> simp [initState] at hp
  | tail hrt hstep ih =>
    cases hstep with
    | start contact lookup new_id now outcome hfresh1 hfresh2 hstrict =>
      exact stateInv_start contact lookup new_id now outcome ih hfresh1
    | complete contact session_id outcome =>
      exact stateInv_complete contact session_id outcome ih
    | finish session_id =>
      exact stateInv_finish session_id ih

theorem countInv_start {st : ServerState} (contact : ContactStart)
    (lookup : LookupResult) (new_id now : String)
    (hfresh1 : alistFind st.sessions new_id = none)
    (hfresh2 : rowCount st.csv new_id = 0) (hCount : CountInv st) :
    CountInv (start_contact st contact lookup new_id now .ok).2 := by
  cases lookup with
  | transportFail m => exact hCount
  | response status data =>
    by_cases hs : status ≠ 200
    · simp only [start_contact, start_inner, if_pos hs]
      exact hCount
    · cases hnasc : nascimentoField data.nasc with
      | error m =>
        simp only [start_contact, start_inner, if_neg hs, hnasc]
        exact hCount
      | ok ns =>
        simp only [start_contact, start_inner, if_neg hs, hnasc]
        have hrow0 : alistFind (toCsvRow (buildContact contact data new_id now ns)) "id"
            = some new_id := by
          rw [toCsvRow_id, buildContact_id]
          rfl
        have hcount' : ∀ t : String,
            rowCount (st.csv ++ [toCsvRow (buildContact contact data new_id now ns)]) t
              = rowCount st.csv t + (if new_id = t then 1 else 0) := by
          intro t
          unfold rowCount
          rw [List.countP_append, List.countP_cons, List.countP_nil, hrow0]
          by_cases ht : new_id = t
          · simp [ht]
          · simp [ht]
        rw [alistSet_of_find_none _ hfresh1]
        intro p hp
        rcases List.mem_append.mp hp with hmem | hmem
        · have hne : new_id ≠ p.1 := by
            intro hh
            exact not_mem_keys_of_find_none hfresh1 (hh ▸ mem_keys_of_mem hmem)
          rw [hcount' p.1, if_neg hne, hCount p hmem]
        · rw [List.mem_singleton.mp hmem]
          rw [hcount' new_id, if_pos rfl, hfresh2]

theorem countInv_complete {st : ServerState} (contact : ContactComplete)
    (session_id : Option String) (outcome : StoreOutcome)
    (hInv : StateInv st) (hCount : CountInv st) :
    CountInv (complete_contact st contact session_id outcome).2 := by
  obtain ⟨hnd, hsess, hcsv⟩ := hInv
  cases session_id with
  | none => exact hCount
  | some s =>
    cases hse : s == "" with
    | true =>
      simp only [complete_contact, complete_inner, hse]
      exact hCount
    | false =>
      cases hfind : alistFind st.sessions s with
      | none =>
        simp only [complete_contact, complete_inner, hse, hfind]
        exact hCount
      | some r =>
        have hmem : (s, r) ∈ st.sessions := mem_of_alistFind_eq_some hfind
        have hOK1 : SessionEntryOK (s, mergeContact r contact) :=
          sessionEntryOK_merge contact (hsess _ hmem)
        have hndrec : (alistKeys (mergeContact r contact)).Nodup := by
          rw [hOK1.1]
          exact RECORD_KEYS_nodup
        cases outcome with
        | readErr m =>
          simp only [complete_contact, complete_inner, hse, hfind]
          exact alist_forall_set hCount (show rowCount st.csv s = 1 from hCount (s, r) hmem)
        | writeErr m =>
          simp only [complete_contact, complete_inner, hse, hfind]
          exact alist_forall_set hCount (show rowCount st.csv s = 1 from hCount (s, r) hmem)
        | ok =>
          simp only [complete_contact, complete_inner, hse, hfind]
          have hsync : ∀ t : String,
              rowCount (syncRow st.csv s (mergeContact r contact)) t = rowCount st.csv t :=
            rowCount_syncRow hndrec hOK1.2.1 st.csv
          refine @alist_forall_set _ st.sessions s (mergeContact r contact)
            (fun p => rowCount (syncRow st.csv s (mergeContact r contact)) p.1 = 1) ?_ ?_
          · intro p hp
            rw [hsync p.1]
            exact hCount p hp
          · show rowCount (syncRow st.csv s (mergeContact r contact)) s = 1
            rw [hsync s]
            exact hCount (s, r) hmem

theorem countInv_finish {st : ServerState} (session_id : Option String)
    (hCount : CountInv st) : CountInv (finish_contact st session_id).2 := by
  cases session_id with
  | none => exact hCount
  | some s =>
    cases hse : s == "" with
    | true =>
      simp only [finish_contact, finish_inner, hse]
      exact hCount
    | false =>
      cases hfind : alistFind st.sessions s with
      | none =>
        simp only [finish_contact, finish_inner, hse, hfind]
        exact hCount
      | some r =>
        simp only [finish_contact, finish_inner, hse, hfind]
        intro p hp
        exact hCount p (mem_alistErase hp)

theorem appStep_false_of_true {st st' : ServerState} (h : AppStep true st st') :
    AppStep false st st' := by
  cases h with
  | start contact lookup new_id now outcome hfresh1 hfresh2 hstrict =>
    exact .start false _ contact lookup new_id now outcome hfresh1 hfresh2
      (fun hh => absurd hh (by decide))
  | complete contact session_id outcome => exact .complete false _ contact session_id outcome
  | finish session_id => exact .finish false _ session_id

theorem reachable_of_reachableSync {st : ServerState} (h : ReachableSync st) :
    Reachable st :=
  Relation.ReflTransGen.mono (fun _ _ => appStep_false_of_true) h

/-- Along runs whose `start` store syncs succeed, the structural invariant
and the one-row-per-live-session property both hold. -/
theorem countInv_of_reachableSync {st : ServerState} (h : ReachableSync st) :
    StateInv st ∧ CountInv st := by
  induction h with
  | refl =>
    refine ⟨⟨List.nodup_nil, ?_, ?_⟩, ?_⟩ <;> intro p hp <;> simp [initState] at hp
  | tail hrt hstep ih =>
    cases hstep with
    | start contact lookup new_id now outcome hfresh1 hfresh2 hstrict =>
      have hok : outcome = .ok := hstrict rfl
      subst hok
      exact ⟨stateInv_start contact lookup new_id now .ok ih.1 hfresh1,
        countInv_start contact lookup new_id now hfresh1 hfresh2 ih.2⟩
    | complete contact session_id outcome =>
      exact ⟨stateInv_complete contact session_id outcome ih.1,
        countInv_complete contact session_id outcome ih.1 ih.2⟩
    | finish session_id =>
      exact ⟨stateInv_finish session_id ih.1, countInv_finish session_id ih.2⟩

/-! ### Behaviour characterizations of the three endpoints -/

theorem complete_contact_missing {st : ServerState} (contact : ContactComplete)
    {session_id : Option String} (outcome : StoreOutcome)
    (habsent : sessionAbsent st.sessions session_id = true) :
    complete_contact st contact session_id outcome
      = (.error ⟨500, "404: Session not found"⟩, st) := by
  cases session_id with
  | none => rfl
  | some s =>
    simp only [sessionAbsent] at habsent
    cases hse : s == "" with
    | true => simp only [complete_contact, complete_inner, hse]; rfl
    | false =>
      rw [hse] at habsent
      simp only [Bool.false_or] at habsent
      cases hfind : alistFind st.sessions s with
      | none => simp only [complete_contact, complete_inner, hse, hfind]; rfl
      | some r => rw [hfind] at habsent; simp at habsent

theorem finish_contact_missing {st : ServerState} {session_id : Option String}
    (habsent : sessionAbsent st.sessions session_id = true) :
    finish_contact st session_id = (.error ⟨500, "404: Session not found"⟩, st) := by
  cases session_id with
  | none => rfl
  | some s =>
    simp only [sessionAbsent] at habsent
    cases hse : s == "" with
    | true => simp only [finish_contact, finish_inner, hse]; rfl
    | false =>
      rw [hse] at habsent
      simp only [Bool.false_or] at habsent
      cases hfind : alistFind st.sessions s with
      | none => simp only [finish_contact, finish_inner, hse, hfind]; rfl
      | some r => rw [hfind] at habsent; simp at habsent

theorem finish_contact_found {st : ServerState} {s : String} {r : Record}
    (hse : (s == "") = false) (hfind : alistFind st.sessions s = some r) :
    finish_contact st (some s)
      = (.ok "Session finished successfully", ⟨alistErase st.sessions s, st.csv⟩) := by
  simp only [finish_contact, finish_inner, hse, hfind]
  rfl

theorem complete_contact_found_ok {st : ServerState} (contact : ContactComplete)
    {s : String} {r : Record} (hse : (s == "") = false)
    (hfind : alistFind st.sessions s = some r) :
    complete_contact st contact (some s) .ok
      = (.ok "Session updated successfully",
         ⟨alistSet st.sessions s (mergeContact r contact),
          syncRow st.csv s (mergeContact r contact)⟩) := by
  simp only [complete_contact, complete_inner, hse, hfind]
  rfl

theorem complete_contact_found_readErr {st : ServerState} (contact : ContactComplete)
    {s : String} {r : Record} (m : String) (hse : (s == "") = false)
    (hfind : alistFind st.sessions s = some r) :
    complete_contact st contact (some s) (.readErr m)
      = (.error ⟨500, m⟩,
         ⟨alistSet st.sessions s (mergeContact r contact), st.csv⟩) := by
  simp only [complete_contact, complete_inner, hse, hfind]
  rfl

theorem complete_contact_found_writeErr {st : ServerState} (contact : ContactComplete)
    {s : String} {r : Record} (m : String) (hse : (s == "") = false)
    (hfind : alistFind st.sessions s = some r) :
    complete_contact st contact (some s) (.writeErr m)
      = (.error ⟨500, m⟩,
         ⟨alistSet st.sessions s (mergeContact r contact), st.csv⟩) := by
  simp only [complete_contact, complete_inner, hse, hfind]
  rfl

theorem start_contact_transportFail (st : ServerState) (contact : ContactStart)
    (m : String) (new_id now : String) (outcome : StoreOutcome) :
    start_contact st contact (.transportFail m) new_id now outcome
      = (.error ⟨500, "Error fetching CPF data: " ++ m⟩, st) := rfl

theorem start_contact_badStatus (st : ServerState) (contact : ContactStart)
    {status : Nat} (data : ProviderData) (new_id now : String) (outcome : StoreOutcome)
    (hs : status ≠ 200) :
    start_contact st contact (.response status data) new_id now outcome
      = (.error ⟨500, "404: CPF data not found"⟩, st) := by
  simp only [start_contact, start_inner, if_pos hs]
  rfl

theorem start_contact_success {st : ServerState} (contact : ContactStart)
    {data : ProviderData} {ns : String} (new_id now : String)
    (hnasc : nascimentoField data.nasc = .ok ns) :
    start_contact st contact (.response 200 data) new_id now .ok
      = (.ok "Session started successfully",
         ⟨alistSet st.sessions new_id (buildContact contact data new_id now ns),
          st.csv ++ [toCsvRow (buildContact contact data new_id now ns)]⟩) := by
  have hs : ¬(200 ≠ 200) := by simp
  simp only [start_contact, start_inner, if_neg hs, hnasc]

theorem start_contact_readErr {st : ServerState} (contact : ContactStart)
    {data : ProviderData} {ns : String} (new_id now m : String)
    (hnasc : nascimentoField data.nasc = .ok ns) :
    start_contact st contact (.response 200 data) new_id now (.readErr m)
      = (.error ⟨500, m⟩,
         ⟨alistSet st.sessions new_id (buildContact contact data new_id now ns), st.csv⟩) := by
  have hs : ¬(200 ≠ 200) := by simp
  simp only [start_contact, start_inner, if_neg hs, hnasc]
  rfl

/-! ### Further helper lemmas -/

theorem alistFind_isSome_of_mem_keys {l : List (String × α)} {k : String}
    (h : k ∈ alistKeys l) : ∃ v, alistFind l k = some v := by
  induction l with
  | nil => simp [alistKeys] at h
  | cons p t ih =>
    by_cases hp : p.1 = k
    · refine ⟨p.2, ?_⟩
      rw [alistFind_cons]
      simp [hp]
    · have hpb : (p.1 == k) = false := by simp [hp]
      rw [alistKeys_cons] at h
      rcases List.mem_cons.mp h with h | h
      · exact absurd h.symm hp
      · rw [alistFind_cons, hpb]
        simpa using ih h

/-- The list-comprehension-plus-first-element of main.py 105-106 picks the
first `parente` whose `vinculo` is `"FILHA(O)"`. -/
theorem nome_mae_eq_find (parentes : List ProviderPerson) :
    nome_mae parentes
      = ((parentes.find? (fun p => p.vinculo == "FILHA(O)")).map
          (fun p => p.nome)).getD "N/A" := by
  induction parentes with
  | nil => rfl
  | cons p t ih =>
    cases hp : p.vinculo == "FILHA(O)" with
    | true => simp [nome_mae, List.filter_cons, List.find?_cons, hp]
    | false =>
      simp only [nome_mae, List.filter_cons, List.find?_cons, hp]
      simpa [nome_mae] using ih

theorem nome_mae_of_no_match {parentes : List ProviderPerson}
    (h : ∀ p ∈ parentes, p.vinculo ≠ "FILHA(O)") : nome_mae parentes = "N/A" := by
  rw [nome_mae_eq_find]
  have : parentes.find? (fun p => p.vinculo == "FILHA(O)") = none := by
    rw [List.find?_eq_none]
    intro p hp
    simp [h p hp]
  rw [this]
  rfl

/-! ### Concrete fixtures (the spec §8 scenario) -/

/-- The provider response body of the specification scenario. -/
def dataAna : ProviderData :=
  ⟨"Ana Silva", "12345678901", some "1990-05-10 00:00:00",
   [⟨"FILHA(O)", "Bruno Silva"⟩]⟩

/-- The record `start` builds from `dataAna` with token `"tok"`. -/
def recAna : Record :=
  buildContact ⟨"1.2.3.4", "12345678901"⟩ dataAna "tok" "12:00 - 01/01" "10/05/1990"

/-- The state after one successful `start` of the scenario. -/
def stateOne : ServerState :=
  (start_contact initState ⟨"1.2.3.4", "12345678901"⟩ (.response 200 dataAna)
    "tok" "12:00 - 01/01" .ok).2

/-- The state after the scenario `start` whose store rewrite failed. -/
def stateBad : ServerState :=
  (start_contact initState ⟨"1.2.3.4", "12345678901"⟩ (.response 200 dataAna)
    "tok" "12:00 - 01/01" (.readErr "disk failure")).2

/-- State `stateOne` after `complete` posted `email = "a@b.com"`. -/
def stateTwo : ServerState :=
  (complete_contact stateOne ⟨none, none, none, none, some "a@b.com", none⟩
    (some "tok") .ok).2

/-- State `stateTwo` after `finish`. -/
def stateThree : ServerState := (finish_contact stateTwo (some "tok")).2

theorem stateOne_reachable : Reachable stateOne :=
  Relation.ReflTransGen.single
    (AppStep.start false initState ⟨"1.2.3.4", "12345678901"⟩ (.response 200 dataAna)
      "tok" "12:00 - 01/01" .ok (by decide) (by decide) (fun _ => rfl))

theorem stateOne_reachableSync : ReachableSync stateOne :=
  Relation.ReflTransGen.single
    (AppStep.start true initState ⟨"1.2.3.4", "12345678901"⟩ (.response 200 dataAna)
      "tok" "12:00 - 01/01" .ok (by decide) (by decide) (fun _ => rfl))

theorem stateBad_reachable : Reachable stateBad :=
  Relation.ReflTransGen.single
    (AppStep.start false initState ⟨"1.2.3.4", "12345678901"⟩ (.response 200 dataAna)
      "tok" "12:00 - 01/01" (.readErr "disk failure") (by decide) (by decide)
      (fun h => absurd h (by decide)))

/-! ### Claim theorems -/

/-- C1: for every `complete` call on a live session, the merged record kept in
the Session Table takes, for each of the six posted fields, the incoming value
exactly when it is present and non-empty, and keeps the previously stored
value when the incoming value is absent or empty (`mergeField` is that
per-field description). -/
theorem C1_complete_merges_by_nonempty (st : ServerState) (c : ContactComplete)
    (outcome : StoreOutcome) {sid : String} {r : Record} (hsid : sid ≠ "")
    (hlive : alistFind st.sessions sid = some r) :
    alistFind (complete_contact st c (some sid) outcome).2.sessions sid
        = some (mergeContact r c) ∧
      ∀ f ∈ COMPLETE_FIELDS,
        alistFind (mergeContact r c) f = mergeField (ccGet c f) (alistFind r f) := by
  have hse : (sid == "") = false := by simp [hsid]
  constructor
  · cases outcome with
    | ok =>
      rw [complete_contact_found_ok c hse hlive]
      exact alistFind_set_self st.sessions sid (mergeContact r c)
    | readErr m =>
      rw [complete_contact_found_readErr c m hse hlive]
      exact alistFind_set_self st.sessions sid (mergeContact r c)
    | writeErr m =>
      rw [complete_contact_found_writeErr c m hse hlive]
      exact alistFind_set_self st.sessions sid (mergeContact r c)
  · intro f hf
    exact alistFind_mergeContact r c hf

/-- Witness for C1: a concrete call on the scenario session posting a
non-empty `senha`, an explicitly empty `email`, and nothing else. -/
theorem C1_complete_merges_by_nonempty_witness :
    alistFind (complete_contact stateOne ⟨some "pw", none, none, none, some "", none⟩
        (some "tok") .ok).2.sessions "tok"
      = some (mergeContact recAna ⟨some "pw", none, none, none, some "", none⟩) ∧
    ∀ f ∈ COMPLETE_FIELDS,
      alistFind (mergeContact recAna ⟨some "pw", none, none, none, some "", none⟩) f
        = mergeField (ccGet ⟨some "pw", none, none, none, some "", none⟩ f)
            (alistFind recAna f) :=
  C1_complete_merges_by_nonempty stateOne ⟨some "pw", none, none, none, some "", none⟩
    .ok (by decide) (by decide)

/-- C2 (code bug): with a missing, empty, or unknown session cookie, both
`complete` and `finish` reject the call and leave the whole state unchanged,
but the HTTP status is 500, not the specified 404: the handler's blanket
`except Exception` catches its own `HTTPException(404, "Session not found")`
and re-raises it as `HTTPException(500, str(e))`, as the detail string
`"404: Session not found"` shows. -/
theorem C2_missing_session_rejected_with_500 :
    complete_contact stateOne ccNone none .ok
        = (.error ⟨500, "404: Session not found"⟩, stateOne) ∧
      complete_contact stateOne ccNone (some "") .ok
        = (.error ⟨500, "404: Session not found"⟩, stateOne) ∧
      complete_contact stateOne ccNone (some "unknown") .ok
        = (.error ⟨500, "404: Session not found"⟩, stateOne) ∧
      finish_contact stateOne none = (.error ⟨500, "404: Session not found"⟩, stateOne) ∧
      finish_contact stateOne (some "unknown")
        = (.error ⟨500, "404: Session not found"⟩, stateOne) :=
  ⟨rfl, rfl, rfl, rfl, rfl⟩

/-- C3 counterexample: when the store rewrite of `start` fails, the session
is already registered (the dict insert at main.py 128 precedes the CSV
append at 131-134), so a reachable state has a live session whose token
matches no Record Store row — refuting `exactly one row' as stated. -/
theorem C3_counterexample_start_store_failure :
    Reachable stateBad ∧ alistFind stateBad.sessions "tok" = some recAna ∧
      rowCount stateBad.csv "tok" = 0 :=
  ⟨stateBad_reachable, by decide, by decide⟩

/-- C3 (amended): restricted to runs in which every `start` call's store
synchronization succeeded, every live session's token matches exactly one
Record Store row; `complete` and `finish` calls (even failing ones) never
add, duplicate, or remove rows. -/
theorem C3_unique_row_per_live_session {st : ServerState} (h : ReachableSync st) :
    ∀ p ∈ st.sessions, rowCount st.csv p.1 = 1 :=
  (countInv_of_reachableSync h).2

/-- Witness for C3 (amended) at the scenario state. -/
theorem C3_unique_row_per_live_session_witness : rowCount stateOne.csv "tok" = 1 :=
  C3_unique_row_per_live_session stateOne_reachableSync ("tok", recAna) (by decide)

/-- C4 (code bug): after a successful `finish`, the token is gone from the
Session Table; later `complete` and `finish` calls presenting it are
rejected with the state unchanged, and the Record Store row keeps the
values of the last synchronization (`finish` touches no store).  But the
rejection status is 500 — the handler's own `HTTPException(404)` is
re-wrapped by the blanket `except Exception` — not the specified 404. -/
theorem C4_finished_token_rejected_with_500 :
    (finish_contact stateTwo (some "tok")).1 = .ok "Session finished successfully" ∧
    stateThree.csv = stateTwo.csv ∧
    alistFind stateThree.sessions "tok" = none ∧
    complete_contact stateThree ⟨none, none, none, none, some "x@y.z", none⟩
        (some "tok") .ok = (.error ⟨500, "404: Session not found"⟩, stateThree) ∧
    finish_contact stateThree (some "tok")
        = (.error ⟨500, "404: Session not found"⟩, stateThree) ∧
    rowCount stateThree.csv "tok" = 1 ∧
    (∀ row ∈ stateThree.csv, alistFind row "id" = some "tok" →
        alistFind row "email" = some "a@b.com") :=
  ⟨rfl, by decide, by decide, rfl, rfl, by decide, by decide⟩

/-- C5 counterexample: on the scenario session, a `complete` posting a new
`senha` whose store read fails returns an error, yet the Session Table
entry has already been merged (the dict update at main.py 168-170 precedes
the CSV access at 173) — the call failed but the observable state changed,
refuting the stated atomicity. -/
theorem C5_counterexample_store_failure_partial_commit :
    (complete_contact stateOne ⟨some "newpw", none, none, none, none, none⟩
        (some "tok") (.readErr "disk failure")).1 = .error ⟨500, "disk failure"⟩ ∧
    (complete_contact stateOne ⟨some "newpw", none, none, none, none, none⟩
        (some "tok") (.readErr "disk failure")).2.sessions ≠ stateOne.sessions ∧
    (complete_contact stateOne ⟨some "newpw", none, none, none, none, none⟩
        (some "tok") (.readErr "disk failure")).2.csv = stateOne.csv :=
  ⟨rfl, by decide, by decide⟩

/-- C5 (amended): `complete` commits to the Record Store only on success; a
failing call never changes the Record Store, and a session-not-found
failure changes nothing at all — but a store I/O failure may leave the
already-merged Session Table entry behind.  On success both the Session
Table entry and the store row carry all accepted fields. -/
theorem C5_complete_atomicity_amended (st : ServerState) (c : ContactComplete)
    (sid : Option String) (outcome : StoreOutcome) :
    (∀ e : HTTPExc, (complete_contact st c sid outcome).1 = .error e →
        (complete_contact st c sid outcome).2.csv = st.csv) ∧
    (sessionAbsent st.sessions sid = true →
        complete_contact st c sid outcome = (.error ⟨500, "404: Session not found"⟩, st)) ∧
    (∀ m : String, (complete_contact st c sid outcome).1 = .ok m →
        outcome = .ok ∧ ∃ s r, sid = some s ∧ alistFind st.sessions s = some r ∧
          (complete_contact st c sid outcome).2
            = ⟨alistSet st.sessions s (mergeContact r c),
               syncRow st.csv s (mergeContact r c)⟩) := by
  by_cases habs : sessionAbsent st.sessions sid = true
  · rw [complete_contact_missing c outcome habs]
    exact ⟨fun e _ => rfl, fun _ => rfl, fun m hm => by simp at hm⟩
  · cases sid with
    | none => exact absurd rfl habs
    | some s =>
      cases hse : s == "" with
      | true => exact absurd (by simp [sessionAbsent, hse]) habs
      | false =>
        cases hfind : alistFind st.sessions s with
        | none => exact absurd (by simp [sessionAbsent, hse, hfind]) habs
        | some r =>
          cases outcome with
          | ok =>
            rw [complete_contact_found_ok c hse hfind]
            exact ⟨fun e he => by simp at he, fun hh => absurd hh habs,
              fun m hm => ⟨rfl, s, r, rfl, hfind, rfl⟩⟩
          | readErr mm =>
            rw [complete_contact_found_readErr c mm hse hfind]
            exact ⟨fun e _ => rfl, fun hh => absurd hh habs, fun m hm => by simp at hm⟩
          | writeErr mm =>
            rw [complete_contact_found_writeErr c mm hse hfind]
            exact ⟨fun e _ => rfl, fun hh => absurd hh habs, fun m hm => by simp at hm⟩

/-- Witness for C5 (amended): a session-not-found `complete` changes nothing. -/
theorem C5_complete_atomicity_amended_witness :
    complete_contact stateOne ccNone (some "ghost") .ok
      = (.error ⟨500, "404: Session not found"⟩, stateOne) :=
  (C5_complete_atomicity_amended stateOne ccNone (some "ghost") .ok).2.1 (by decide)

theorem COMPLETE_FIELDS_subset_RECORD_KEYS : ∀ f ∈ COMPLETE_FIELDS, f ∈ RECORD_KEYS := by
  decide

/-- C6: two `complete` calls on the same live session whose sets of
present-and-non-empty fields are disjoint accumulate: the final session
record holds both calls' values simultaneously, and every store row whose
`id` matches the token has been synchronized to that record. -/
theorem C6_disjoint_completes_accumulate (st : ServerState) (c1 c2 : ContactComplete)
    {sid : String} {r : Record} (hsid : sid ≠ "")
    (hlive : alistFind st.sessions sid = some r)
    (hkeys : alistKeys r = RECORD_KEYS) (hid : alistFind r "id" = some sid)
    (hdisj : ∀ f ∈ COMPLETE_FIELDS,
      ccGet c1 f = none ∨ ccGet c1 f = some "" ∨ ccGet c2 f = none ∨ ccGet c2 f = some "") :
    alistFind (complete_contact (complete_contact st c1 (some sid) .ok).2 c2
        (some sid) .ok).2.sessions sid
      = some (mergeContact (mergeContact r c1) c2) ∧
    (∀ f ∈ COMPLETE_FIELDS, ∀ v : String, v ≠ "" →
      (ccGet c1 f = some v ∨ ccGet c2 f = some v) →
        alistFind (mergeContact (mergeContact r c1) c2) f = some v) ∧
    (∀ row ∈ (complete_contact (complete_contact st c1 (some sid) .ok).2 c2
        (some sid) .ok).2.csv,
      alistFind row "id" = some sid →
        ∀ f ∈ COMPLETE_FIELDS,
          alistFind row f = alistFind (mergeContact (mergeContact r c1) c2) f) := by
  have hse : (sid == "") = false := by simp [hsid]
  rw [complete_contact_found_ok c1 hse hlive]
  have hlive1 : alistFind (alistSet st.sessions sid (mergeContact r c1)) sid
      = some (mergeContact r c1) := alistFind_set_self _ _ _
  rw [@complete_contact_found_ok ⟨alistSet st.sessions sid (mergeContact r c1),
    syncRow st.csv sid (mergeContact r c1)⟩ c2 sid (mergeContact r c1) hse hlive1]
  have hkeys1 : alistKeys (mergeContact r c1) = RECORD_KEYS := by
    rw [alistKeys_mergeContact c1 hkeys]
    exact hkeys
  have hkeys2 : alistKeys (mergeContact (mergeContact r c1) c2) = RECORD_KEYS := by
    rw [alistKeys_mergeContact c2 hkeys1]
    exact hkeys1
  have hid2 : alistFind (mergeContact (mergeContact r c1) c2) "id" = some sid := by
    rw [alistFind_mergeContact_not_mem _ c2 (by decide),
      alistFind_mergeContact_not_mem _ c1 (by decide)]
    exact hid
  have hnd2 : (alistKeys (mergeContact (mergeContact r c1) c2)).Nodup := by
    rw [hkeys2]
    exact RECORD_KEYS_nodup
  refine ⟨alistFind_set_self _ _ _, ?_, ?_⟩
  · intro f hf v hv hor
    have h2 : alistFind (mergeContact (mergeContact r c1) c2) f
        = mergeField (ccGet c2 f) (alistFind (mergeContact r c1) f) :=
      alistFind_mergeContact _ c2 hf
    have h1 : alistFind (mergeContact r c1) f
        = mergeField (ccGet c1 f) (alistFind r f) := alistFind_mergeContact _ c1 hf
    rcases hor with hc1 | hc2
    · have hinner : alistFind (mergeContact r c1) f = some v := by
        rw [h1, hc1]
        simp [mergeField, hv]
      rcases hdisj f hf with hd | hd | hd | hd
      · rw [hc1] at hd; simp at hd
      · rw [hc1] at hd
        rw [Option.some.inj hd] at hv
        exact absurd rfl hv
      · rw [h2, hd, hinner]
        rfl
      · rw [h2, hd, hinner]
        simp [mergeField]
    · rw [h2, hc2]
      simp [mergeField, hv]
  · intro row hrow hrowid f hf
    have hidentries : ∀ p ∈ mergeContact (mergeContact r c1) c2, p.1 = "id" → p.2 = sid :=
      rec_id_entries hnd2 hid2
    rw [syncRow_map_form hidentries] at hrow
    rcases List.mem_map.mp hrow with ⟨row0, hrow0, hEq⟩
    by_cases hmatch : alistFind row0 "id" == some sid
    · rw [if_pos hmatch] at hEq
      rw [← hEq]
      have hfR : f ∈ alistKeys (mergeContact (mergeContact r c1) c2) := by
        rw [hkeys2]
        exact COMPLETE_FIELDS_subset_RECORD_KEYS f hf
      rcases alistFind_isSome_of_mem_keys hfR with ⟨w, hw⟩
      rw [alistFind_rowSync_of_find hnd2 hw row0, hw]
    · rw [if_neg hmatch] at hEq
      rw [← hEq] at hrowid
      exact absurd (by simp [hrowid]) hmatch

/-- Witness for C6: on the scenario session, posting `email` then `senha`
leaves the first call's `email` in the final record. -/
theorem C6_disjoint_completes_accumulate_witness :
    alistFind (mergeContact (mergeContact recAna
        ⟨none, none, none, none, some "a@b.com", none⟩)
        ⟨some "pw", none, none, none, none, none⟩) "email" = some "a@b.com" :=
  (@C6_disjoint_completes_accumulate stateOne
      ⟨none, none, none, none, some "a@b.com", none⟩
      ⟨some "pw", none, none, none, none, none⟩ "tok" recAna (by decide) (by decide)
      (by decide) (by decide) (by decide)).2.1 "email" (by decide) "a@b.com" (by decide)
    (Or.inl (by decide))

/-- C7: the scenario `start` (ip "1.2.3.4", cpf "12345678901", provider
status 200 with nome "Ana Silva", nasc "1990-05-10 00:00:00" and one
FILHA(O) parente "Bruno Silva") registers a record with cpf
"123.456.789-01", nascimento "10/05/1990" and mae "Bruno Silva"; in
general `mae` is the name of the first parente whose vinculo is "FILHA(O)"
("N/A" when there is none) and `nascimento` is "N/A" when the provider
omits `nasc`. -/
theorem C7_start_scenario_record :
    (∀ new_id now : String,
      alistFind ((start_contact initState ⟨"1.2.3.4", "12345678901"⟩
          (.response 200 dataAna) new_id now .ok).2.sessions) new_id
        = some (buildContact ⟨"1.2.3.4", "12345678901"⟩ dataAna new_id now "10/05/1990") ∧
      alistFind (buildContact ⟨"1.2.3.4", "12345678901"⟩ dataAna new_id now "10/05/1990")
          "cpf" = some "123.456.789-01" ∧
      alistFind (buildContact ⟨"1.2.3.4", "12345678901"⟩ dataAna new_id now "10/05/1990")
          "nascimento" = some "10/05/1990" ∧
      alistFind (buildContact ⟨"1.2.3.4", "12345678901"⟩ dataAna new_id now "10/05/1990")
          "mae" = some "Bruno Silva") ∧
    (∀ parentes : List ProviderPerson,
      nome_mae parentes
        = ((parentes.find? (fun p => p.vinculo == "FILHA(O)")).map
            (fun p => p.nome)).getD "N/A") ∧
    (∀ parentes : List ProviderPerson,
      (∀ p ∈ parentes, p.vinculo ≠ "FILHA(O)") → nome_mae parentes = "N/A") ∧
    (∀ (st : ServerState) (contact : ContactStart) (data : ProviderData)
        (new_id now : String), data.nasc = none →
      alistFind ((start_contact st contact (.response 200 data) new_id now .ok).2.sessions)
          new_id = some (buildContact contact data new_id now "N/A") ∧
      alistFind (buildContact contact data new_id now "N/A") "nascimento" = some "N/A") := by
  refine ⟨?_, nome_mae_eq_find, fun parentes h => nome_mae_of_no_match h, ?_⟩
  · intro new_id now
    have hnasc : nascimentoField dataAna.nasc = .ok "10/05/1990" := rfl
    rw [start_contact_success ⟨"1.2.3.4", "12345678901"⟩ new_id now hnasc]
    have h1 := alistFind_set_self initState.sessions new_id
      (buildContact ⟨"1.2.3.4", "12345678901"⟩ dataAna new_id now "10/05/1990")
    refine ⟨h1, ?_, ?_, ?_⟩
    · rw [buildContact_cpf]
      decide
    · rw [buildContact_nascimento]
    · rw [buildContact_mae]
      decide
  · intro st contact data new_id now hn
    have hnasc : nascimentoField data.nasc = .ok "N/A" := by rw [hn]; rfl
    rw [start_contact_success contact new_id now hnasc]
    have h1 := alistFind_set_self st.sessions new_id (buildContact contact data new_id now "N/A")
    exact ⟨h1, buildContact_nascimento _ _ _ _ _⟩

/-- Witness for C7: a parente list with no FILHA(O) entry yields mae "N/A". -/
theorem C7_start_scenario_record_witness : nome_mae [⟨"PAI", "Carlos"⟩] = "N/A" :=
  C7_start_scenario_record.2.2.1 [⟨"PAI", "Carlos"⟩] (by decide)

/-- C8 (code bug): a completed provider call reporting a non-success status
aborts `start` with no session entry and no row created — but with HTTP
500 (the raised 404 is re-wrapped, as the detail "404: CPF data not found"
shows), not the specified 404; a transport-level failure yields HTTP 500
as specified and also mutates nothing. -/
theorem C8_lookup_failure_statuses :
    start_contact initState ⟨"1.2.3.4", "12345678901"⟩ (.response 404 dataAna)
        "tok" "12:00 - 01/01" .ok
      = (.error ⟨500, "404: CPF data not found"⟩, initState) ∧
    start_contact stateOne ⟨"5.6.7.8", "10987654321"⟩ (.response 0 dataAna)
        "tok2" "12:01 - 01/01" .ok
      = (.error ⟨500, "404: CPF data not found"⟩, stateOne) ∧
    start_contact stateOne ⟨"5.6.7.8", "10987654321"⟩
        (.transportFail "connection refused") "tok2" "12:01 - 01/01" .ok
      = (.error ⟨500, "Error fetching CPF data: connection refused"⟩, stateOne) :=
  ⟨rfl, rfl, rfl⟩

/-- C9: in every reachable state every Session Table entry is
self-consistent: the stored record's `id` cell equals the key token, and
its key set is exactly the fifteen `new_contact` fields, a permutation of
the fifteen `CSV_COLUMNS`. -/
theorem C9_session_entries_self_consistent {st : ServerState} (h : Reachable st) :
    ∀ p ∈ st.sessions, alistFind p.2 "id" = some p.1 ∧
      alistKeys p.2 = RECORD_KEYS ∧ RECORD_KEYS.Perm CSV_COLUMNS := by
  intro p hp
  obtain ⟨_, hsess, _⟩ := stateInv_of_reachable h
  obtain ⟨hkeys, hid, _, _⟩ := hsess p hp
  exact ⟨hid, hkeys, by decide⟩

/-- Witness for C9 at the scenario state. -/
theorem C9_session_entries_self_consistent_witness :
    alistFind recAna "id" = some "tok" ∧ alistKeys recAna = RECORD_KEYS ∧
      RECORD_KEYS.Perm CSV_COLUMNS :=
  C9_session_entries_self_consistent stateOne_reachable ("tok", recAna) (by decide)

/-- C10: in every reachable state — whatever interleaving of `start`,
`complete`, `finish` and store failures occurred — the `endereco` and
`geo` cells of every live session record and of every Record Store row are
the empty string. -/
theorem C10_endereco_geo_stay_empty {st : ServerState} (h : Reachable st) :
    (∀ p ∈ st.sessions, alistFind p.2 "endereco" = some "" ∧
        alistFind p.2 "geo" = some "") ∧
    (∀ row ∈ st.csv, alistFind row "endereco" = some "" ∧
        alistFind row "geo" = some "") := by
  obtain ⟨_, hsess, hcsv⟩ := stateInv_of_reachable h
  exact ⟨fun p hp => ⟨(hsess p hp).2.2.1, (hsess p hp).2.2.2⟩,
    fun row hrow => ⟨(hcsv row hrow).2.1, (hcsv row hrow).2.2⟩⟩

/-- Witness for C10 at the scenario state's store row. -/
theorem C10_endereco_geo_stay_empty_witness :
    alistFind (toCsvRow recAna) "endereco" = some "" ∧
      alistFind (toCsvRow recAna) "geo" = some "" :=
  (C10_endereco_geo_stay_empty stateOne_reachable).2 (toCsvRow recAna) (by decide)
